/-
  Verification of the flexiManage tunnel-lifecycle and device-modification
  orchestration engine (backend/deviceLogic/{tunnels,modifyDevice,events}.js),
  via a shallow embedding of the relevant code into Lean.

  The document store and external collaborators (job queue, rate limiter)
  are modelled as explicit inputs, following the system's own interface
  boundaries: every `findOneAndUpdate`/`find` result that the code consumes
  is a parameter of the embedded function, and every mutation the code
  performs is part of the returned value.
-/
import Mathlib

namespace FlexiManage

/-! ## Tunnel identity allocator (tunnels.js, generateTunnelPromise) -/

/-- Outcome of one atomic `tunnelIDsModel.findOneAndUpdate` increment attempt,
as observed by the promise callbacks in `generateTunnelPromise`:
either the updated counter document (`new: true`), or a rejection whose
`err.code` is `11000` (duplicate key, raised when two concurrent upserts
race on the unique per-organization key), or any other rejection. -/
inductive IncOutcome where
  | ok (nextAvailID : Nat)
  | errDup
  | errOther
  deriving DecidableEq, Repr

/-- Semantics of the atomic counter update
`tunnelIDsModel.findOneAndUpdate({org, nextAvailID: {$gte: 0, $lt: 15000}},
{$inc: {nextAvailID: 1}}, {new: true, upsert: true})`:

* if a concurrent upsert races on the unique `org` key, the driver rejects
  with error code 11000 (`errDup`);
* otherwise, if the organization's counter document exists and its value is
  inside the queried range `[0, 15000)`, the counter is incremented and the
  new document is returned;
* a counter at or above 15000 matches nothing, so the upsert tries to insert
  a second document for the same unique `org` key and fails with 11000;
* a missing counter document is created by the upsert with the increment
  applied to the default 0. -/
def tunnelIdIncrement (counter : Option Nat) (concurrentRace : Bool) : IncOutcome :=
  if concurrentRace then .errDup
  else
    match counter with
    | some c => if c < 15000 then .ok (c + 1) else .errDup
    | none => .ok 1

/-- Result of the allocation promise: resolved with the tunnel number that
`addTunnel` was invoked with (the jobs it queues are configured from this
number), or rejected with an error message. -/
inductive AllocResult where
  | resolved (tunnelnum : Nat)
  | rejected (msg : String)
  deriving DecidableEq, Repr

/-- Shallow embedding of `generateTunnelPromise` (tunnels.js lines 547-651).
`findInactive` is the result of
`tunnelsModel.findOneAndUpdate({isActive: false, org}, {isActive: true})`:
`some num` when an inactive tunnel document of the organization was found and
atomically flipped to active (its number is reused), `none` otherwise.
`attempt1` and `attempt2` are the outcomes of the first and second
`tunnelIDsModel.findOneAndUpdate` increment attempts; the second is consulted
only when the first rejects with the duplicate-key code 11000. -/
def generateTunnelPromise (findInactive : Option Nat)
    (attempt1 attempt2 : IncOutcome) : AllocResult :=
  match findInactive with
  | some num => .resolved num
  | none =>
    match attempt1 with
    | .ok n => .resolved n
    | .errDup =>
      match attempt2 with
      | .ok n => .resolved n
      | .errDup => .rejected "Tunnel ID not found"
      | .errOther => .rejected "Tunnel ID not found"
    | .errOther => .rejected "Tunnel ID not found"

/-! ## Tunnel parameter generator -/

/-- Modelled from the spec: `generateTunnelParams` lives in
utils/tunnelUtils.js, which is not under src/. Per spec section 4.1 it is a
pure, deterministic, total function of the tunnel number whose addressing
fields are injective (loopback /31 pairs); we model the address space
abstractly, the pair for tunnel `num` being `(2*num, 2*num+1)`. -/
structure TunnelParams where
  ip1 : Nat
  ip2 : Nat
  deriving DecidableEq, Repr

/-- Modelled from the spec: deterministic loopback /31 pair of a tunnel
number (see `TunnelParams`). -/
def generateTunnelParams (num : Nat) : TunnelParams :=
  ⟨2 * num, 2 * num + 1⟩

/-! ## Reconciliation / event engine (events.js)

The document store and the rate limiter are external collaborators (spec
section 6): the tunnels and static routes the event methods read are
parameters, `publicAddrInfoLimiter.isBlocked` is a `String → Bool`
parameter, and the DB writes / notifications / batched-dispatch sets the
methods produce are returned explicitly. The `addChangedDevice`
accumulation (used only for the end-of-pass modify-device dispatch, which
no claim concerns) is omitted. -/

/-- Modelled from the spec: the pending-reason strings are built by
deviceLogic/events/eventReasons.js, which is not under src/. The spec
(design note, section 9) treats `pendingReason` as a machine state
discriminant compared for equality, so we model the reasons as a typed
enumeration carrying the arguments the source passes to each builder;
`noReason` is the empty string stored for non-pending documents. -/
inductive Reason where
  | noReason
  | interfaceHasNoIp (ifcName deviceName : String)
  | publicPortHighRate (ifcName deviceName : String)
  | tunnelIsPending (num : Nat)
  deriving DecidableEq, Repr

/-- An interface as populated on a device document (the fields the event
methods read). -/
structure Ifc where
  id : String
  name : String
  hasIpOnDevice : Bool
  deriving DecidableEq, Repr

/-- The device fields the event methods read. -/
structure DeviceRef where
  id : String
  name : String
  deriving DecidableEq, Repr

/-- One side of a tunnel: the populated device and its tunnel interface. -/
structure Side where
  device : DeviceRef
  ifc : Ifc
  deriving DecidableEq, Repr

/-- A tunnel document as the event loops see it, with both sides populated
(`populate('deviceA')`/`populate('deviceB')` and the `interfaces.find`
lookups). `sideB` is `none` exactly for peer tunnels: peers are not
configured with `deviceB`/`interfaceB`. -/
structure PTunnel where
  id : String
  num : Nat
  org : String
  isActive : Bool
  isPending : Bool
  pendingReason : Reason
  deviceA : DeviceRef
  ifcA : Ifc
  sideB : Option Side
  deriving DecidableEq, Repr

/-- `tunnel.peer` is non-null exactly when the tunnel has no B side. -/
def PTunnel.isPeerTunnel (t : PTunnel) : Bool := t.sideB.isNone

/-- A static route sub-document (the fields the event methods read: the
gateway compared against the tunnel loopback IPs, and the pending state). -/
structure StaticRoute where
  id : String
  gateway : Nat
  isPending : Bool
  pendingReason : Reason
  deriving DecidableEq, Repr

/-- Notifications emitted through `notificationsMgr.sendNotifications`. -/
inductive Notice where
  | tunnelPendingNotice (num : Nat) (reason : Reason)
  | routePendingNotice (routeId : String) (reason : Reason)
  deriving DecidableEq, Repr

/-- The side effects of one event-engine call: notifications sent, the
per-pass `pendingTunnels` / `activeTunnels` batching sets (consumed by
`sendTunnelsRemoveJobs` / `sendTunnelsCreateJobs`), and the
`updatePendingTunnelReason` DB writes. -/
structure Effects where
  notices : List Notice
  pendingTunnels : List String
  activeTunnels : List String
  reasonWrites : List (Nat × Reason)
  deriving DecidableEq, Repr

/-- The empty effect set. -/
def Effects.none : Effects := ⟨[], [], [], []⟩

/-- Concatenation of effect sets in program order. -/
def Effects.app (a b : Effects) : Effects :=
  ⟨a.notices ++ b.notices, a.pendingTunnels ++ b.pendingTunnels,
   a.activeTunnels ++ b.activeTunnels, a.reasonWrites ++ b.reasonWrites⟩

/-- The rate limiter key `deviceId:interfaceId`. -/
def limiterKey (deviceId ifcId : String) : String := deviceId ++ ":" ++ ifcId

/-- Whether a static route is routed via one of the tunnel's generated
loopback addresses (the `getTunnelStaticRoutes` aggregation filter). -/
def routeTouchedByTunnel (num : Nat) (r : StaticRoute) : Bool :=
  let p := generateTunnelParams num
  r.gateway == p.ip1 || r.gateway == p.ip2

/-- `setIncompleteRouteStatus`: updates the route's pending state in the
device document and, when setting it pending, notifies
(`staticRouteSetToPending`). -/
def setIncompleteRouteStatus (r : StaticRoute) (isIncomplete : Bool) (reason : Reason) :
    StaticRoute × List Notice :=
  ({ r with isPending := isIncomplete,
            pendingReason := if isIncomplete then reason else .noReason },
   if isIncomplete then [.routePendingNotice r.id reason] else [])

/-- `tunnelSetToPending`: optionally notifies about the tunnel itself, then
cascades to every not-yet-pending static route whose gateway is one of the
tunnel's loopback IPs, setting it pending with the `tunnelIsPending` reason.
`allRoutes` are the organization's static routes
(`getTunnelStaticRoutes` filters them by gateway). -/
def tunnelSetToPending (t : PTunnel) (allRoutes : List StaticRoute)
    (reason : Reason) (notify : Bool) : List StaticRoute × List Notice :=
  let tnotice := if notify then [Notice.tunnelPendingNotice t.num reason] else []
  let target := fun r => routeTouchedByTunnel t.num r && !r.isPending
  let rs := allRoutes.map fun r =>
    if target r then (setIncompleteRouteStatus r true (.tunnelIsPending t.num)).1 else r
  let ns := (allRoutes.filter target).flatMap fun r =>
    (setIncompleteRouteStatus r true (.tunnelIsPending t.num)).2
  (rs, tnotice ++ ns)

/-- `tunnelSetToActive`: cascades to every pending static route via the
tunnel's loopback IPs, clearing its pending state (no notification). -/
def tunnelSetToActive (t : PTunnel) (allRoutes : List StaticRoute) :
    List StaticRoute × List Notice :=
  let target := fun r => routeTouchedByTunnel t.num r && r.isPending
  (allRoutes.map fun r =>
    if target r then (setIncompleteRouteStatus r false .noReason).1 else r, [])

/-- `setIncompleteTunnelStatus`: flips the tunnel's pending state in the DB,
records the tunnel in the pass's `pendingTunnels` / `activeTunnels` batching
set, and runs `tunnelSetToPending` (with notification) or
`tunnelSetToActive`. -/
def setIncompleteTunnelStatus (t : PTunnel) (allRoutes : List StaticRoute)
    (isIncomplete : Bool) (reason : Reason) :
    PTunnel × List StaticRoute × Effects :=
  let t2 := { t with isPending := isIncomplete,
                     pendingReason := if isIncomplete then reason else .noReason }
  if isIncomplete then
    let p := tunnelSetToPending t2 allRoutes reason true
    (t2, p.1, ⟨p.2, [t.id], [], []⟩)
  else
    let p := tunnelSetToActive t2 allRoutes
    (t2, p.1, ⟨p.2, [], [t.id], []⟩)

/-- The body of the `setPendingStateToTunnels` loop for one matched tunnel:
an already-pending tunnel only gets its stored reason refreshed when it
differs (`updatePendingTunnelReason`) and re-runs the route cascade without
notification (`tunnelSetToPending(..., false)`); an active tunnel is set
pending through `setIncompleteTunnelStatus`. -/
def setPendingStep (t : PTunnel) (allRoutes : List StaticRoute) (reason : Reason) :
    PTunnel × List StaticRoute × Effects :=
  if t.isPending then
    let writes := if reason ≠ t.pendingReason then [(t.num, reason)] else []
    let t2 := if reason ≠ t.pendingReason then { t with pendingReason := reason } else t
    let p := tunnelSetToPending t2 allRoutes reason false
    (t2, p.1, ⟨p.2, [], [], writes⟩)
  else
    setIncompleteTunnelStatus t allRoutes true reason

/-- Whether a tunnel is bound to the given device and interface on either
side (the `$or` clauses of the tunnel queries). -/
def tunnelBoundTo (deviceId ifcId : String) (t : PTunnel) : Bool :=
  (t.deviceA.id == deviceId && t.ifcA.id == ifcId) ||
    (match t.sideB with
     | some b => b.device.id == deviceId && b.ifc.id == ifcId
     | none => false)

/-- The tunnel query of `setPendingStateToTunnels`: active tunnels bound to
the device and interface, restricted to non-peer tunnels when
`includingPeers` is false (`query.peer = null`). -/
def tunnelMatchesQuery (deviceId ifcId : String) (includingPeers : Bool)
    (t : PTunnel) : Bool :=
  t.isActive && tunnelBoundTo deviceId ifcId t &&
    (includingPeers || !t.isPeerTunnel)

/-- `setPendingStateToTunnels` (events.js lines 404-433): applies
`setPendingStep` to every tunnel matching the query, threading the route
documents through the cascades; non-matching tunnels are untouched. -/
def setPendingStateToTunnels (deviceId ifcId : String) (reason : Reason)
    (includingPeers : Bool) :
    List PTunnel → List StaticRoute → List PTunnel × List StaticRoute × Effects
  | [], routes => ([], routes, Effects.none)
  | t :: rest, routes =>
    if tunnelMatchesQuery deviceId ifcId includingPeers t then
      let s := setPendingStep t routes reason
      let k := setPendingStateToTunnels deviceId ifcId reason includingPeers rest s.2.1
      (s.1 :: k.1, k.2.1, s.2.2.app k.2.2)
    else
      let k := setPendingStateToTunnels deviceId ifcId reason includingPeers rest routes
      (t :: k.1, k.2.1, k.2.2)

/-- `publicInfoIsRateLimited` (events.js lines 98-105): on a "blocked"
signal for `device:interface`, sets the bound tunnels pending with the
public-port-high-rate reason, excluding peer tunnels
(`includingPeers = false`). -/
def publicInfoIsRateLimited (device : DeviceRef) (origIfc : Ifc)
    (tunnels : List PTunnel) (allRoutes : List StaticRoute) :
    List PTunnel × List StaticRoute × Effects :=
  setPendingStateToTunnels device.id origIfc.id
    (.publicPortHighRate origIfc.name device.name) false tunnels allRoutes

/-- The no-IP blocking condition re-checked on promotion
(`ifcA.hasIpOnDevice === false || (ifcB && ifcB.hasIpOnDevice === false)`). -/
def tunnelNoIpBlock (t : PTunnel) : Bool :=
  !t.ifcA.hasIpOnDevice ||
    (match t.sideB with
     | some b => !b.ifc.hasIpOnDevice
     | none => false)

/-- The reason recorded when the no-IP block still holds: the side without
an IP (for peer tunnels always side A). -/
def tunnelNoIpReason (t : PTunnel) : Reason :=
  match t.sideB with
  | none => .interfaceHasNoIp t.ifcA.name t.deviceA.name
  | some b =>
    if t.ifcA.hasIpOnDevice then .interfaceHasNoIp b.ifc.name b.device.name
    else .interfaceHasNoIp t.ifcA.name t.deviceA.name

/-- The rate-limit blocking condition re-checked on promotion; peer tunnels
are not blocked by the public address limiter. -/
def tunnelRateBlock (isBlocked : String → Bool) (t : PTunnel) : Bool :=
  match t.sideB with
  | none => false
  | some b =>
    isBlocked (limiterKey t.deviceA.id t.ifcA.id) ||
      isBlocked (limiterKey b.device.id b.ifc.id)

/-- The reason recorded when the rate-limit block still holds: the blocked
side (side A takes precedence). Unreachable for peer tunnels. -/
def tunnelRateReason (isBlocked : String → Bool) (t : PTunnel) : Reason :=
  match t.sideB with
  | none => .noReason
  | some b =>
    if isBlocked (limiterKey t.deviceA.id t.ifcA.id)
    then .publicPortHighRate t.ifcA.name t.deviceA.name
    else .publicPortHighRate b.ifc.name b.device.name

/-- The body of the `removePendingStateFromTunnels` loop (events.js lines
275-331) for one tunnel found by the query: an active tunnel only re-runs
the route cascade (`tunnelSetToActive`); a pending tunnel is re-checked
against all blocking reasons — still-missing IP first, then the rate
limiter — and on any surviving block stays pending with only its stored
reason refreshed when different; only when no block survives is it promoted
through `setIncompleteTunnelStatus(..., false, ...)`. -/
def removePendingStep (isBlocked : String → Bool) (t : PTunnel)
    (allRoutes : List StaticRoute) : PTunnel × List StaticRoute × Effects :=
  if !t.isPending then
    let p := tunnelSetToActive t allRoutes
    (t, p.1, ⟨p.2, [], [], []⟩)
  else if tunnelNoIpBlock t then
    let reason := tunnelNoIpReason t
    let writes := if t.pendingReason ≠ reason then [(t.num, reason)] else []
    ({ t with pendingReason := reason }, allRoutes, ⟨[], [], [], writes⟩)
  else if tunnelRateBlock isBlocked t then
    let reason := tunnelRateReason isBlocked t
    let writes := if t.pendingReason ≠ reason then [(t.num, reason)] else []
    ({ t with pendingReason := reason }, allRoutes, ⟨[], [], [], writes⟩)
  else
    setIncompleteTunnelStatus t allRoutes false .noReason

/-! ## Device modification differ (modifyDevice.js, apply) -/

/-- A transformed interface as produced by `transformInterfaces`
(modifyDevice.js lines 78-98): the `_id`, `pci` and `isAssigned` fields that
the assignment diff projects out, plus the remaining transformed fields
(`dhcp`, `addr`, `addr6`, `PublicIP`, ...) as a key-value list that the
diff compares only through `lodash.isEqual` (structural equality). -/
structure TIfc where
  id : String
  pci : String
  isAssigned : Bool
  conf : List (String × String)
  deriving DecidableEq, Repr

/-- `lodash.differenceWith(array, values, comparator)`: the elements of
`array` for which no element of `values` compares equal. -/
def differenceWith (a b : List α) (cmp : α → α → Bool) : List α :=
  a.filter fun x => !(b.any fun y => cmp x y)

/-- The `_id`/`pci`/`isAssigned` projection taken of both interface arrays
to compute the assignment diff (modifyDevice.js lines 803-823). -/
structure AssignView where
  id : String
  pci : String
  isAssigned : Bool
  deriving DecidableEq, Repr

/-- The projection of a transformed interface onto its assignment view. -/
def toAssignView (i : TIfc) : AssignView := ⟨i.id, i.pci, i.isAssigned⟩

/-- The `assignedDiff.forEach` loop of `apply` (lines 841-854): for each
interface that flipped its `isAssigned` flag, its full entry is looked up in
`newInterfaces`, pushed onto `toAssign`/`toUnAssign`, and pulled out of
`newInterfaces` (`pullAllWith(newInterfaces, [ifcInfo], isEqual)`) so that
an assignment flip and a field modification never travel in the same
message. The lookup always succeeds because the assignment diff is a
projection of `newInterfaces`; a failed lookup is skipped. -/
def splitAssigned : List AssignView → List TIfc → List TIfc × List TIfc × List TIfc
  | [], remaining => ([], [], remaining)
  | v :: rest, remaining =>
    match remaining.find? (fun e => e.id == v.id) with
    | some info =>
      let remaining2 := remaining.filter fun e => !(decide (e = info))
      let k := splitAssigned rest remaining2
      if v.isAssigned then (info :: k.1, k.2.1, k.2.2)
      else (k.1, info :: k.2.1, k.2.2)
    | none => splitAssigned rest remaining

/-- The interface part of the modify-device diff (`modify_router.assign`,
`modify_router.unassign` and `modify_interfaces.interfaces` of the message
parameters built by `apply`). -/
structure InterfacesDelta where
  assign : List TIfc
  unassign : List TIfc
  modifyInterfaces : List TIfc
  deriving DecidableEq, Repr

/-- The interface diff of `apply` (modifyDevice.js lines 799-876):
assignment flips become `modify_router.assign`/`unassign`; the remaining
new interfaces are diffed against the original ones with `differenceWith`
(`isEqual`), and the resulting diff is filtered to interfaces whose
`isAssigned` flag is true — "Changes made to unassigned interfaces should
be stored in the MGMT, but should not reach the device" (lines 868-872). -/
def computeInterfacesDelta (origInterfaces newInterfaces : List TIfc) :
    InterfacesDelta :=
  let origIsAssigned := origInterfaces.map toAssignView
  let newIsAssigned := newInterfaces.map toAssignView
  let assignedDiff :=
    differenceWith newIsAssigned origIsAssigned fun x y => decide (x = y)
  let s := splitAssigned assignedDiff newInterfaces
  let interfacesDiff :=
    differenceWith s.2.2 origInterfaces fun x y => decide (x = y)
  { assign := s.1, unassign := s.2.1,
    modifyInterfaces := interfacesDiff.filter fun i => i.isAssigned }

/-! ## Device job dispatcher callbacks (modifyDevice.js)

The per-device job channel emits exactly one terminal callback per job —
`complete`, `error` or `removed` (spec section 6) — and invokes the
like-named handler exported by the module that queued the job. -/

/-- The device-document fields relevant to the modify-device job lifecycle:
the in-flight guard flag and the persisted routes and interfaces (abstracted
to payload strings) that a rollback would restore. -/
structure DeviceDoc where
  id : String
  pendingDevModification : Bool
  staticroutes : List String
  interfaces : List String
  deriving DecidableEq, Repr

/-- The tunnel fields written by `setTunnelsPendingInDB`. -/
structure TunnelModDoc where
  id : String
  pendingTunnelModification : Bool
  deriving DecidableEq, Repr

/-- The slice of the document store that the modify-device callbacks can
write. -/
structure ModDbState where
  device : DeviceDoc
  tunnels : List TunnelModDoc
  deriving DecidableEq, Repr

/-- `setJobPendingInDB` (modifyDevice.js lines 575-581): writes the
device's `pendingDevModification` flag. -/
def setJobPendingInDB (st : ModDbState) (flag : Bool) : ModDbState :=
  { st with device := { st.device with pendingDevModification := flag } }

/-- `setTunnelsPendingInDB` (lines 592-598): writes the
`pendingTunnelModification` flag of the given tunnels. -/
def setTunnelsPendingInDB (st : ModDbState) (tunnelIDs : List String)
    (flag : Bool) : ModDbState :=
  { st with tunnels := st.tunnels.map fun t =>
      if t.id ∈ tunnelIDs then { t with pendingTunnelModification := flag } else t }

/-- The database effect of `reconstructTunnels` (lines 514-564): queues
add-tunnel jobs for the still-active removed tunnels (job queuing itself is
external to the store) and then clears their `pendingTunnelModification`
flags via `setTunnelsPendingInDB(..., false)`. -/
def reconstructTunnelsDb (st : ModDbState) (removedTunnels : List String) :
    ModDbState :=
  setTunnelsPendingInDB st removedTunnels false

/-- The `complete` callback of a modify-device job (modifyDevice.js lines
952-965): its only database effect is `reconstructTunnels` on the
removed-tunnel list carried in the job's response data. It never writes
`pendingDevModification`. -/
def modifyDeviceCompleteCb (st : ModDbState) (resTunnels : List String) :
    ModDbState :=
  reconstructTunnelsDb st resTunnels

/-- The terminal-callback table of modifyDevice.js: `module.exports` (lines
1078-1083) provides only `apply`, `complete`, `completeSync` and `sync`, so
among the terminal callback names only `complete` resolves to a handler. -/
def modifyDeviceTerminalHandlers (name : String) :
    Option (ModDbState → List String → ModDbState) :=
  if name = "complete" then some modifyDeviceCompleteCb else none

/-- Terminal-callback dispatch: when the module has no handler of the
emitted name, nothing runs and the store is untouched. -/
def dispatchModifyTerminal (name : String) (st : ModDbState)
    (resTunnels : List String) : ModDbState :=
  match modifyDeviceTerminalHandlers name with
  | some h => h st resTunnels
  | none => st

/-- The pre-change snapshot a rollback would restore and the concrete store
state after a modify-device job changed the persisted routes/interfaces:
the device document already holds the new values and its in-flight flag is
set (as `apply` sets it just before queuing, line 923). -/
def modAfterJobState : ModDbState :=
  ⟨⟨"dev-1", true, ["route-new"], ["ifc-new"]⟩, [⟨"tun-1", true⟩]⟩

/-! ## Tunnel creation requests (tunnels.js, handleTunnels / applyTunnelAdd)

`routerVersionsCompatible`/`getMajorVersion` (versioning.js), the IKEv2
validator and the `getTunnel` document-store lookup are external to the
embedded functions and passed as parameters. -/

/-- A WAN interface as produced by `getInterfacesWithPathLabels` (tunnels.js
lines 1535-1550): assigned WAN interfaces with a gateway, each carrying its
path-label id set (`labelsSet`), in which DIA labels are mapped to `none`
(null). -/
structure WanIfc where
  id : String
  name : String
  labelsSet : List (Option String)
  deriving DecidableEq, Repr

/-- The device fields the tunnel-creation pair loop reads. `ikev2Valid` and
`ikev2Reason` stand for the result of `validateIKEv2(device)`. -/
structure TunDevice where
  id : String
  hostname : String
  routerVersion : String
  agentMajor : Nat
  ikev2Valid : Bool
  ikev2Reason : String
  interfaces : List WanIfc
  deriving DecidableEq, Repr

/-- The arguments of one `generateTunnelPromise` pushed by the pair loop
(one tunnel-creation promise). -/
structure TaskSpec where
  deviceA : String
  deviceB : String
  ifcA : String
  ifcB : String
  label : Option String
  deriving DecidableEq, Repr

/-- The JS `Set` of reason strings: insertion-ordered, duplicates
ignored. -/
def addReason (reasons : List String) (r : String) : List String :=
  if r ∈ reasons then reasons else reasons ++ [r]

/-- `intersectIfcLabels` (tunnels.js lines 36-43): the labels common to both
interfaces, skipping null (DIA) labels. -/
def intersectIfcLabels (a b : List (Option String)) : List String :=
  a.filterMap fun l =>
    match l with
    | some s => if (some s) ∈ b then some s else none
    | none => none

/-- The per-interface-pair body of `handleTunnels` (lines 141-202): decides
which tunnel promises to create between a WAN interface of device A and one
of device B and which reason strings to record, driven by the user-selected
path labels. `tunnelExists` stands for the `getTunnel` store lookup (an
active tunnel with the given label between the two interfaces). -/
def handleIfcPair (tunnelExists : Option String → WanIfc → WanIfc → Bool)
    (specifiedLabels : List String) (deviceA deviceB : TunDevice)
    (wanIfcA wanIfcB : WanIfc) (acc : List TaskSpec × List String) :
    List TaskSpec × List String :=
  let createForAllLabels := "FFFFFF" ∈ specifiedLabels
  if specifiedLabels.length = 0 then
    if wanIfcA.labelsSet.length = 0 ∧ wanIfcB.labelsSet.length = 0 then
      if tunnelExists none wanIfcA wanIfcB then
        (acc.1, addReason acc.2 "Some tunnels exist already.")
      else
        (acc.1 ++ [⟨deviceA.id, deviceB.id, wanIfcA.id, wanIfcB.id, none⟩], acc.2)
    else
      (acc.1, addReason acc.2
        "No Path Labels specified but some devices have interfaces with Path Labels.")
  else
    let inter := intersectIfcLabels wanIfcA.labelsSet wanIfcB.labelsSet
    let acc1 :=
      if inter.length = 0 then
        (acc.1, addReason acc.2
          "Some devices have interfaces without specified Path Labels.")
      else acc
    inter.foldl
      (fun a label =>
        if ¬createForAllLabels ∧ label ∉ specifiedLabels then
          (a.1, addReason a.2
            "Some devices have interfaces without specified Path Labels.")
        else if tunnelExists (some label) wanIfcA wanIfcB then
          (a.1, addReason a.2 "Some tunnels exist already.")
        else
          (a.1 ++ [⟨deviceA.id, deviceB.id, wanIfcA.id, wanIfcB.id, some label⟩],
           a.2))
      acc1

/-- The per-device-pair body of `handleTunnels` (lines 68-213): the router
versions are checked first; a mismatch records
`'Router version mismatch for some devices.'` and skips the pair without
creating any promise. Then come the encryption-method gates ('none'
requires agent major ≥ 4 on both sides, 'ikev2' requires a valid IKEv2
state on both sides), then the interface pairing. -/
def handleDevicePair (compat : String → String → Bool)
    (tunnelExists : Option String → WanIfc → WanIfc → Bool)
    (encryptionMethod : String) (specifiedLabels : List String)
    (deviceA deviceB : TunDevice) (acc : List TaskSpec × List String) :
    List TaskSpec × List String :=
  if !(compat deviceA.routerVersion deviceB.routerVersion) then
    (acc.1, addReason acc.2 "Router version mismatch for some devices.")
  else if encryptionMethod = "none"
      ∧ (deviceA.agentMajor < 4 ∨ deviceB.agentMajor < 4) then
    (acc.1, addReason acc.2 "None encryption method not supported on some of devices.")
  else if encryptionMethod = "ikev2"
      ∧ (deviceA.ikev2Valid = false ∨ deviceB.ikev2Valid = false) then
    let acc1 :=
      if deviceA.ikev2Valid = false then
        (acc.1, addReason acc.2 (deviceA.ikev2Reason ++ " on some of devices."))
      else acc
    if deviceB.ikev2Valid = false then
      (acc1.1, addReason acc1.2 (deviceB.ikev2Reason ++ " on some of devices."))
    else acc1
  else if deviceA.interfaces.length ≠ 0 ∧ deviceB.interfaces.length ≠ 0 then
    deviceA.interfaces.foldl
      (fun a wanIfcA =>
        deviceB.interfaces.foldl
          (fun a2 wanIfcB =>
            handleIfcPair tunnelExists specifiedLabels deviceA deviceB
              wanIfcA wanIfcB a2)
          a)
      acc
  else
    (acc.1, addReason acc.2 "Some devices have no valid WAN interfaces.")

/-- The ordered pairs `(idxA, idxB)` with `idxA < idxB` of the nested device
loops of `handleTunnels`. -/
def allPairs : List α → List (α × α)
  | [] => []
  | x :: rest => rest.map (fun y => (x, y)) ++ allPairs rest

/-- `handleTunnels` (tunnels.js lines 55-217): validates the organization's
key exchange method, then runs the pair loop over the selected devices,
accumulating tunnel-creation promises and the deduplicated,
insertion-ordered reason set. -/
def handleTunnels (compat : String → String → Bool)
    (tunnelExists : Option String → WanIfc → WanIfc → Bool)
    (encryptionMethod : String) (opDevices : List TunDevice)
    (pathLabels : List String) : Except String (List TaskSpec × List String) :=
  if encryptionMethod ∉ ["none", "ikev2", "psk"] then
    .error "Not supported key exchange method"
  else
    .ok ((allPairs opDevices).foldl
      (fun acc p =>
        handleDevicePair compat tunnelExists encryptionMethod pathLabels
          p.1 p.2 acc)
      ([], []))

/-- The response of a tunnel-creation request. -/
structure ApplyResult where
  ids : List Nat
  status : String
  message : String
  deriving DecidableEq, Repr

/-- `applyTunnelAdd` (tunnels.js lines 357-432) for site-to-site tunnels:
requires at least two selected devices, runs `handleTunnels`, settles the
creation promises (`settle task = some jobIds` when the promise fulfills
with those queued jobs, `none` when it rejects) and aggregates the result.
The status is `'partially completed'` exactly when fewer promises fulfilled
than were created. `dbTasks.flat()` does not flatten promises, so the
`desired` length used in the message is the number of promises, while `ids`
flattens the fulfilled job lists. -/
def applyTunnelAdd (compat : String → String → Bool)
    (tunnelExists : Option String → WanIfc → WanIfc → Bool)
    (settle : TaskSpec → Option (List Nat)) (encryptionMethod : String)
    (opDevices : List TunDevice) (pathLabels : List String) :
    Except String ApplyResult :=
  if opDevices.length < 2 then
    .error "At least 2 devices must be selected to create tunnels"
  else
    match handleTunnels compat tunnelExists encryptionMethod opDevices pathLabels with
    | .error e => .error e
    | .ok (tasks, reasons) =>
      let fulfilled := tasks.filterMap settle
      let status :=
        if fulfilled.length < tasks.length then "partially completed"
        else "completed"
      let desiredLen := tasks.length
      let ids := fulfilled.flatten
      let base := "tunnels creation jobs added."
      let message :=
        if desiredLen = 0 then "No " ++ base
        else if ids.length < desiredLen then
          toString ids.length ++ " of " ++ toString desiredLen ++ " " ++ base
        else toString ids.length ++ " " ++ base
      let message2 :=
        if reasons.length > 0 then message ++ " " ++ String.intercalate " " reasons
        else message
      .ok ⟨ids, status, message2⟩

/-- First concrete device of the C7 scenario. -/
def c7DeviceA : TunDevice := ⟨"A", "hostA", "1.0.0", 4, true, "", []⟩

/-- Second concrete device of the C7 scenario, with an incompatible router
version. -/
def c7DeviceB : TunDevice := ⟨"B", "hostB", "3.0.0", 4, true, "", []⟩

/-! ## Single tunnel deletion (tunnels.js, oneTunnelDel) -/

/-- A static route of a populated device (only the gateway participates in
the `[ip1, ip2].includes(s.gateway)` check). -/
structure DelRoute where
  gateway : Nat
  deriving DecidableEq, Repr

/-- A device as populated on the tunnel being deleted. -/
structure DelDevice where
  id : String
  hostname : String
  machineId : String
  staticroutes : List DelRoute
  deriving DecidableEq, Repr

/-- A tunnel document as `oneTunnelDel` reads it, with `deviceA`/`deviceB`
populated; `deviceB` is `none` for peer tunnels. -/
structure DelTunnel where
  id : String
  num : Nat
  org : String
  isActive : Bool
  deviceA : DelDevice
  deviceB : Option DelDevice
  pendingTunnelModification : Bool
  deviceAconf : Bool
  deviceBconf : Bool
  tunnelKeys : Option String
  deriving DecidableEq, Repr

/-- A queued remove-tunnel job: the target machine and the `remove-tunnel`
task parameter `tunnel-id`. -/
structure RemoveJob where
  machineId : String
  tunnelNum : Nat
  deriving DecidableEq, Repr

/-- The outcome of `oneTunnelDel`: the resolution of the promise, the tunnel
collection after the call, and the jobs queued by it. -/
structure DelOutcome where
  result : Except String Unit
  db : List DelTunnel
  jobs : List RemoveJob
  deriving Repr

/-- Whether one of the device's static routes uses one of the tunnel's two
generated loopback IPs as its gateway
(`staticroutes.some(s => [ip1, ip2].includes(s.gateway))`). -/
def staticRouteViaTunnel (p : TunnelParams) (d : DelDevice) : Bool :=
  d.staticroutes.any fun s => s.gateway == p.ip1 || s.gateway == p.ip2

/-- `oneTunnelDel` (tunnels.js lines 1163-1221): finds the active tunnel of
the organization, derives its loopback pair from `num`, and throws — before
any job is queued and before the document is touched — whenever a static
route on device A, or on device B for non-peer tunnels, is routed via one of
those loopbacks; otherwise it queues the remove jobs (side A, and side B for
non-peer tunnels) and then deactivates the tunnel document (clearing the
conf flags, the modification flag and the keys). -/
def oneTunnelDel (db : List DelTunnel) (tunnelID org : String) : DelOutcome :=
  match db.find? (fun t => t.id == tunnelID && t.isActive && t.org == org) with
  | none => ⟨.error "Tunnel not found", db, []⟩
  | some tunnelResp =>
    let p := generateTunnelParams tunnelResp.num
    let tunnelUsedByStaticRoute :=
      staticRouteViaTunnel p tunnelResp.deviceA ||
        (match tunnelResp.deviceB with
         | some dB => staticRouteViaTunnel p dB
         | none => false)
    if tunnelUsedByStaticRoute then
      ⟨.error
        "Some static routes defined via removed tunnel, please remove static routes first",
       db, []⟩
    else
      let jobs := RemoveJob.mk tunnelResp.deviceA.machineId tunnelResp.num ::
        (match tunnelResp.deviceB with
         | some dB => [RemoveJob.mk dB.machineId tunnelResp.num]
         | none => [])
      let db2 := db.map fun t =>
        if t.id == tunnelID && t.org == org then
          { t with isActive := false, deviceAconf := false, deviceBconf := false,
                   pendingTunnelModification := false, tunnelKeys := none }
        else t
      ⟨.ok (), db2, jobs⟩

/-! ## tunnels.js exports and the batched remove dispatch (events.js) -/

/-- The keys of `module.exports` of tunnels.js (lines 1552-1570). -/
def tunnelsJsExports : List String :=
  ["apply", "complete", "error", "sync", "completeSync",
   "prepareTunnelRemoveJob", "prepareTunnelAddJob", "queueTunnel",
   "oneTunnelDel"]

/-- CommonJS destructuring import: the binding is defined only when the
module exports the name. -/
def requireExport (moduleExports : List String) (name : String) :
    Option String :=
  if name ∈ moduleExports then some name else none

/-- events.js line 25 destructures `sendRemoveTunnelsJobs` from
`require('./tunnels')`. -/
def sendRemoveTunnelsJobsBinding : Option String :=
  requireExport tunnelsJsExports "sendRemoveTunnelsJobs"

/-- `Events.sendTunnelsRemoveJobs` (events.js lines 584-589): the batched
remove dispatch at the end of an event pass over the collected
pending-tunnel set. When the set is non-empty it calls the destructured
`sendRemoveTunnelsJobs` import; calling an undefined binding raises a
TypeError, in which case no remove job is dispatched. -/
def sendTunnelsRemoveJobs (pendingTunnels : List String) :
    Except String (List String) :=
  if pendingTunnels.isEmpty then .ok []
  else
    match sendRemoveTunnelsJobsBinding with
    | some _ => .ok pendingTunnels
    | none => .error "TypeError: sendRemoveTunnelsJobs is not a function"

end FlexiManage

namespace FlexiManage

/-! ## Theorems -/

/-- **C1.** For every tunnel-creation request the allocator first reuses an
inactive tunnel document of the organization (atomically flipped to active);
only if none exists does it atomically increment the per-organization counter,
whose non-raced increment succeeds exactly on the bounded range `[0, 15000)`
and yields the incremented value; on a uniqueness conflict (code 11000) from a
concurrent allocation it retries the increment exactly once more, and if that
single retry also fails it rejects with the reported allocation error
`"Tunnel ID not found"` — every path resolves or rejects, never silently
drops. -/
theorem c1_allocator_reuse_then_bounded_increment_with_single_retry :
    ∀ (num n : Nat) (a1 a2 : IncOutcome) (c : Nat),
      (generateTunnelPromise (some num) a1 a2 = .resolved num)
      ∧ (generateTunnelPromise none (.ok n) a2 = .resolved n)
      ∧ (generateTunnelPromise none .errDup (.ok n) = .resolved n)
      ∧ (generateTunnelPromise none .errDup .errDup
          = .rejected "Tunnel ID not found")
      ∧ (generateTunnelPromise none .errDup .errOther
          = .rejected "Tunnel ID not found")
      ∧ (generateTunnelPromise none .errOther a2
          = .rejected "Tunnel ID not found")
      ∧ (tunnelIdIncrement (some c) false
          = if c < 15000 then .ok (c + 1) else .errDup)
      ∧ (tunnelIdIncrement (some c) true = .errDup) := by
  intro num n a1 a2 c
  refine ⟨rfl, rfl, rfl, rfl, rfl, ?_, rfl, rfl⟩
  cases a2 <;> rfl

/-- The tunnel document produced by one `setPendingStateToTunnels` loop body
is the input tunnel with `isPending := true` and the given reason (it does
not depend on the route documents): an active tunnel is set pending; an
already-pending tunnel keeps `isPending = true` and ends up storing the
computed reason (either freshly written or already equal). -/
lemma setPendingStep_fst (t : PTunnel) (rs : List StaticRoute) (r : Reason) :
    (setPendingStep t rs r).1 =
      { t with isPending := true, pendingReason := r } := by
  by_cases h : t.isPending
  · by_cases hr : r = t.pendingReason
    · cases t
      simp_all [setPendingStep]
    · cases t
      simp_all [setPendingStep]
  · simp [setPendingStep, setIncompleteTunnelStatus, h]

/-- **C5.** A tunnel that is already Pending and is hit by another
pending-setting event (one `setPendingStateToTunnels` loop body): no
tunnel-pending notification is emitted, the tunnel is not added to the
per-pass `pendingTunnels` set (so no remove job is dispatched for it at the
end of the pass), the tunnel document changes only in its `pendingReason`
field when the computed reason differs from the stored one, and when the
reason is identical the document is unchanged and no reason write occurs. -/
theorem c5_pending_reentry_is_idempotent (t : PTunnel) (rs : List StaticRoute)
    (r : Reason) (h : t.isPending = true) :
    ((setPendingStep t rs r).1
        = (if r = t.pendingReason then t else { t with pendingReason := r }))
    ∧ (setPendingStep t rs r).2.2.pendingTunnels = []
    ∧ (∀ (num : Nat) (r0 : Reason),
        Notice.tunnelPendingNotice num r0 ∉ (setPendingStep t rs r).2.2.notices)
    ∧ (setPendingStep t rs r).2.2.reasonWrites
        = (if r = t.pendingReason then [] else [(t.num, r)]) := by
  refine ⟨?_, ?_, ?_, ?_⟩
  · by_cases hr : r = t.pendingReason
    · cases t
      simp_all [setPendingStep]
    · simp [setPendingStep, h, hr]
  · simp [setPendingStep, h]
  · intro num r0
    simp only [setPendingStep, h, if_true]
    simp [tunnelSetToPending, List.mem_flatMap, setIncompleteRouteStatus]
  · by_cases hr : r = t.pendingReason <;>
      simp [setPendingStep, h, hr]

/-- Witness input for C5: a pending tunnel re-hit with the identical
reason. -/
def c5wTunnel : PTunnel :=
  { id := "tun-1", num := 4, org := "org-1", isActive := true, isPending := true,
    pendingReason := .interfaceHasNoIp "eth0" "deviceA",
    deviceA := ⟨"dA", "deviceA"⟩, ifcA := ⟨"iA", "eth0", false⟩,
    sideB := some ⟨⟨"dB", "deviceB"⟩, ⟨"iB", "eth1", true⟩⟩ }

/-- Witness for C5 at a concrete already-pending tunnel with an identical
recomputed reason: the document is unchanged, no tunnel notification, no
dispatch, no reason write. -/
theorem c5_witness :
    (setPendingStep c5wTunnel [⟨"r1", 8, false, .noReason⟩]
        (.interfaceHasNoIp "eth0" "deviceA")).1 = c5wTunnel
    ∧ (setPendingStep c5wTunnel [⟨"r1", 8, false, .noReason⟩]
        (.interfaceHasNoIp "eth0" "deviceA")).2.2.reasonWrites = [] := by
  have h := c5_pending_reentry_is_idempotent c5wTunnel [⟨"r1", 8, false, .noReason⟩]
    (.interfaceHasNoIp "eth0" "deviceA") rfl
  refine ⟨?_, ?_⟩
  · have h1 := h.1
    simpa using h1
  · have h4 := h.2.2.2
    simpa using h4

/-- **C4.** Re-evaluating a pending tunnel for promotion (one
`removePendingStateFromTunnels` loop body on a tunnel with
`isPending = true`): it is promoted (set not-pending and batched for
reconstruction) exactly when no blocking reason still holds — neither a
missing IP on either side's interface nor a rate-limit block on either side
(the rate-limit check being skipped for peer tunnels, built into
`tunnelRateBlock`); when a blocking reason survives, the tunnel stays
Pending, the document changes only in its stored `pendingReason` (written
only when it differs), and it is neither notified nor batched for any
job. -/
theorem c4_promotion_rechecks_all_pending_reasons (isBlocked : String → Bool)
    (t : PTunnel) (rs : List StaticRoute) (h : t.isPending = true) :
    (tunnelNoIpBlock t = false → tunnelRateBlock isBlocked t = false →
      (removePendingStep isBlocked t rs).1
          = { t with isPending := false, pendingReason := .noReason }
        ∧ (removePendingStep isBlocked t rs).2.2.activeTunnels = [t.id])
    ∧ (tunnelNoIpBlock t = true →
        (removePendingStep isBlocked t rs).1
            = { t with pendingReason := tunnelNoIpReason t }
        ∧ (removePendingStep isBlocked t rs).1.isPending = true
        ∧ (removePendingStep isBlocked t rs).2.2.activeTunnels = []
        ∧ (removePendingStep isBlocked t rs).2.2.pendingTunnels = []
        ∧ (removePendingStep isBlocked t rs).2.2.notices = []
        ∧ (removePendingStep isBlocked t rs).2.2.reasonWrites
            = (if t.pendingReason = tunnelNoIpReason t then []
               else [(t.num, tunnelNoIpReason t)]))
    ∧ (tunnelNoIpBlock t = false → tunnelRateBlock isBlocked t = true →
        (removePendingStep isBlocked t rs).1
            = { t with pendingReason := tunnelRateReason isBlocked t }
        ∧ (removePendingStep isBlocked t rs).1.isPending = true
        ∧ (removePendingStep isBlocked t rs).2.2.activeTunnels = []
        ∧ (removePendingStep isBlocked t rs).2.2.pendingTunnels = []
        ∧ (removePendingStep isBlocked t rs).2.2.notices = []
        ∧ (removePendingStep isBlocked t rs).2.2.reasonWrites
            = (if t.pendingReason = tunnelRateReason isBlocked t then []
               else [(t.num, tunnelRateReason isBlocked t)])) := by
  refine ⟨?_, ?_, ?_⟩
  · intro h1 h2
    simp [removePendingStep, h, h1, h2, setIncompleteTunnelStatus]
  · intro h1
    refine ⟨?_, ?_, ?_, ?_, ?_, ?_⟩ <;>
      by_cases hr : t.pendingReason = tunnelNoIpReason t <;>
        simp [removePendingStep, h, h1, hr]
  · intro h1 h2
    refine ⟨?_, ?_, ?_, ?_, ?_, ?_⟩ <;>
      by_cases hr : t.pendingReason = tunnelRateReason isBlocked t <;>
        simp [removePendingStep, h, h1, h2, hr]

/-- Witness input for C4: a pending non-peer tunnel whose side-B interface
still has no IP on the device. -/
def c4wTunnel : PTunnel :=
  { id := "tun-2", num := 9, org := "org-1", isActive := true, isPending := true,
    pendingReason := .publicPortHighRate "eth0" "deviceA",
    deviceA := ⟨"dA", "deviceA"⟩, ifcA := ⟨"iA", "eth0", true⟩,
    sideB := some ⟨⟨"dB", "deviceB"⟩, ⟨"iB", "eth1", false⟩⟩ }

/-- Witness for C4 at a concrete pending tunnel with a surviving no-IP
block on side B: it stays pending and only the stored reason is
refreshed. -/
theorem c4_witness :
    c4wTunnel.isPending = true
    ∧ tunnelNoIpBlock c4wTunnel = true
    ∧ (removePendingStep (fun _ => false) c4wTunnel []).1
        = { c4wTunnel with pendingReason := tunnelNoIpReason c4wTunnel }
    ∧ (removePendingStep (fun _ => false) c4wTunnel []).2.2.activeTunnels = [] := by
  have h := c4_promotion_rechecks_all_pending_reasons (fun _ => false) c4wTunnel [] rfl
  have h2 := h.2.1 (by decide)
  exact ⟨rfl, by decide, h2.1, h2.2.2.1⟩

/-- The tunnels returned by `setPendingStateToTunnels`: every tunnel
matching the query is set pending with the given reason; every other tunnel
is returned unchanged. -/
lemma setPendingStateToTunnels_fst (deviceId ifcId : String) (r : Reason)
    (inc : Bool) :
    ∀ (ts : List PTunnel) (rs : List StaticRoute),
      (setPendingStateToTunnels deviceId ifcId r inc ts rs).1 =
        ts.map fun t =>
          if tunnelMatchesQuery deviceId ifcId inc t
          then { t with isPending := true, pendingReason := r } else t := by
  intro ts
  induction ts with
  | nil => intro rs; rfl
  | cons t rest ih =>
    intro rs
    by_cases h : tunnelMatchesQuery deviceId ifcId inc t <;>
      simp [setPendingStateToTunnels, h, ih, setPendingStep_fst]

/-- **C9.** On a "blocked" rate-limiter signal for a `device:interface` key
(`publicInfoIsRateLimited`), every active non-peer tunnel bound to that
interface ends up Pending with the public-port-high-rate reason for that
interface and device, while every other tunnel — in particular every peer
tunnel on the same interface — is left unchanged. -/
theorem c9_rate_limit_blocks_nonpeer_tunnels_only (device : DeviceRef)
    (origIfc : Ifc) (ts : List PTunnel) (rs : List StaticRoute) :
    (publicInfoIsRateLimited device origIfc ts rs).1 =
      ts.map fun t =>
        if t.isActive && tunnelBoundTo device.id origIfc.id t && !t.isPeerTunnel
        then { t with isPending := true,
                      pendingReason := .publicPortHighRate origIfc.name device.name }
        else t := by
  rw [publicInfoIsRateLimited, setPendingStateToTunnels_fst]
  simp [tunnelMatchesQuery]

/-- **C6.** Every interface entry of the `modify_interfaces` part of the
modification message built for the device has `isAssigned = true`:
interface changes whose `isAssigned` flag is false are excluded by the
filter on the diff, so the device never receives configuration for an
unassigned interface (the change stays only in the management database). -/
theorem c6_unassigned_interface_changes_not_sent (origInterfaces newInterfaces : List TIfc)
    (ifc : TIfc)
    (h : ifc ∈ (computeInterfacesDelta origInterfaces newInterfaces).modifyInterfaces) :
    ifc.isAssigned = true := by
  simp only [computeInterfacesDelta, List.mem_filter] at h
  exact h.2

/-- Witness for C6: an assigned interface whose address changed does reach
the diff (the hypothesis is satisfiable), and the theorem applies to it. -/
theorem c6_witness :
    ⟨"i1", "p1", true, [("addr", "10.0.0.2/24")]⟩ ∈
        (computeInterfacesDelta [⟨"i1", "p1", true, [("addr", "10.0.0.1/24")]⟩]
          [⟨"i1", "p1", true, [("addr", "10.0.0.2/24")]⟩]).modifyInterfaces
    ∧ TIfc.isAssigned ⟨"i1", "p1", true, [("addr", "10.0.0.2/24")]⟩ = true := by
  refine ⟨by decide, ?_⟩
  exact c6_unassigned_interface_changes_not_sent
    [⟨"i1", "p1", true, [("addr", "10.0.0.1/24")]⟩]
    [⟨"i1", "p1", true, [("addr", "10.0.0.2/24")]⟩]
    ⟨"i1", "p1", true, [("addr", "10.0.0.2/24")]⟩ (by decide)

/-- **C2.** Contrary to the claim, the `pendingDevModification` flag is not
false again after the terminal callbacks of a modify-device job fire: the
`complete` callback's store effect leaves the flag exactly as it was (here
`true`, as `apply` set it before queuing), and the module exports no
`error` or `remove` handler at all, so no terminal callback ever clears
it. -/
theorem c2_flag_not_cleared_after_terminal_callbacks :
    (modifyDeviceCompleteCb modAfterJobState ["tun-1"]).device.pendingDevModification
        = true
    ∧ modifyDeviceTerminalHandlers "error" = none
    ∧ modifyDeviceTerminalHandlers "remove" = none := by
  refine ⟨rfl, ?_, ?_⟩ <;> simp [modifyDeviceTerminalHandlers]

/-- **C3.** Contrary to the claim, a modify-device job that errors or is
removed triggers no rollback: modifyDevice.js exports no `error` or
`remove` handler, so the terminal dispatch for either name leaves the store
untouched and the persisted device document keeps the new routes rather
than returning to the pre-change snapshot (`["route-old"]`). -/
theorem c3_no_rollback_on_error_or_removal :
    modifyDeviceTerminalHandlers "error" = none
    ∧ dispatchModifyTerminal "error" modAfterJobState ["tun-1"] = modAfterJobState
    ∧ dispatchModifyTerminal "remove" modAfterJobState ["tun-1"] = modAfterJobState
    ∧ (dispatchModifyTerminal "error" modAfterJobState ["tun-1"]).device.staticroutes
        ≠ ["route-old"] := by
  refine ⟨?_, ?_, ?_, ?_⟩ <;>
    simp [dispatchModifyTerminal, modifyDeviceTerminalHandlers, modAfterJobState]

/-- **C7, counterexample.** Requesting tunnel creation between exactly two
devices with incompatible router versions: the code returns status
`'completed'`, not `'partially completed'` as the claim states — with zero
creation promises, `fulfilled.length < dbTasks.length` is `0 < 0`, which is
false. The job-id list is empty and the message does contain the router
version mismatch reason. -/
theorem c7_counterexample_status_is_completed :
    applyTunnelAdd (fun _ _ => false) (fun _ _ _ => false) (fun _ => none) "psk"
        [c7DeviceA, c7DeviceB] []
      = .ok ⟨[], "completed",
          "No tunnels creation jobs added. Router version mismatch for some devices."⟩
    ∧ ("completed" : String) ≠ "partially completed" := by
  exact ⟨rfl, by decide⟩

/-- **C7, amended.** Requesting tunnel creation between exactly two devices
whose router versions are incompatible (under any supported key exchange
method) yields status `'completed'` — the mismatching pair is skipped before
any creation promise exists, so nothing ran and nothing failed — with an
empty job-id list and a message containing the reason string
`'Router version mismatch'`. -/
theorem c7_amended_version_mismatch_completed_no_jobs
    (compat : String → String → Bool)
    (tunnelExists : Option String → WanIfc → WanIfc → Bool)
    (settle : TaskSpec → Option (List Nat)) (encryptionMethod : String)
    (devA devB : TunDevice) (pathLabels : List String)
    (hm : encryptionMethod ∈ ["none", "ikev2", "psk"])
    (hc : compat devA.routerVersion devB.routerVersion = false) :
    applyTunnelAdd compat tunnelExists settle encryptionMethod [devA, devB]
        pathLabels
      = .ok ⟨[], "completed",
          "No tunnels creation jobs added. Router version mismatch for some devices."⟩ := by
  have h2 : ¬ ([devA, devB].length < 2) := by simp
  have hm2 : ¬ encryptionMethod ∉ ["none", "ikev2", "psk"] := fun hn => hn hm
  have hpair : handleDevicePair compat tunnelExists encryptionMethod pathLabels
      devA devB ([], []) = ([], ["Router version mismatch for some devices."]) := by
    simp [handleDevicePair, hc, addReason]
  have htunnels : handleTunnels compat tunnelExists encryptionMethod [devA, devB]
      pathLabels = .ok ([], ["Router version mismatch for some devices."]) := by
    rw [handleTunnels, if_neg hm2]
    simp [allPairs, hpair]
  unfold applyTunnelAdd
  rw [if_neg h2, htunnels]
  rfl

/-- Witness for C7 at the concrete mismatching pair: the hypotheses hold and
the amended result follows. -/
theorem c7_witness :
    ("psk" : String) ∈ ["none", "ikev2", "psk"]
    ∧ (fun (_ _ : String) => false) c7DeviceA.routerVersion c7DeviceB.routerVersion
        = false
    ∧ applyTunnelAdd (fun _ _ => false) (fun _ _ _ => false) (fun _ => none) "psk"
        [c7DeviceA, c7DeviceB] []
      = .ok ⟨[], "completed",
          "No tunnels creation jobs added. Router version mismatch for some devices."⟩ := by
  refine ⟨by simp, rfl, ?_⟩
  exact c7_amended_version_mismatch_completed_no_jobs (fun _ _ => false)
    (fun _ _ _ => false) (fun _ => none) "psk" c7DeviceA c7DeviceB [] (by simp) rfl

/-- **C10.** Deleting a single tunnel when any static route on either
connected device uses one of the tunnel's two loopback IPs (derived
deterministically from its `num`) as gateway fails with the error
`'Some static routes defined via removed tunnel, please remove static
routes first'`; no remove job is queued and the tunnel collection —
including the active tunnel document — is unchanged. -/
theorem c10_delete_blocked_by_static_routes_via_tunnel (db : List DelTunnel)
    (tunnelID org : String) (t : DelTunnel)
    (hfind : db.find? (fun x => x.id == tunnelID && x.isActive && x.org == org)
        = some t)
    (hused : staticRouteViaTunnel (generateTunnelParams t.num) t.deviceA = true
      ∨ ∃ dB, t.deviceB = some dB
          ∧ staticRouteViaTunnel (generateTunnelParams t.num) dB = true) :
    (oneTunnelDel db tunnelID org).result
        = .error
          "Some static routes defined via removed tunnel, please remove static routes first"
    ∧ (oneTunnelDel db tunnelID org).db = db
    ∧ (oneTunnelDel db tunnelID org).jobs = [] := by
  rcases hused with h | ⟨dB, hB, h⟩
  · simp [oneTunnelDel, hfind, h]
  · simp [oneTunnelDel, hfind, h, hB]

/-- Witness input for C10: an active tunnel with `num = 3` whose device A
has a static route via loopback `ip1` of the pair generated for 3. -/
def c10Tunnel : DelTunnel :=
  { id := "tid-1", num := 3, org := "org-1", isActive := true,
    deviceA := ⟨"dA", "hostA", "mA", [⟨6⟩]⟩,
    deviceB := some ⟨"dB", "hostB", "mB", []⟩,
    pendingTunnelModification := false, deviceAconf := true, deviceBconf := true,
    tunnelKeys := some "keys" }

/-- Witness for C10 at the concrete blocked deletion. -/
theorem c10_witness :
    (oneTunnelDel [c10Tunnel] "tid-1" "org-1").result
        = .error
          "Some static routes defined via removed tunnel, please remove static routes first"
    ∧ (oneTunnelDel [c10Tunnel] "tid-1" "org-1").db = [c10Tunnel]
    ∧ (oneTunnelDel [c10Tunnel] "tid-1" "org-1").jobs = [] := by
  exact c10_delete_blocked_by_static_routes_via_tunnel [c10Tunnel] "tid-1" "org-1"
    c10Tunnel rfl (Or.inl (by decide))

/-- **C8.** Contrary to the claim, when an active site-to-site tunnel
transitions into Pending during an event pass, the batched remove dispatch
at the end of the pass cannot queue a tunnel-remove job: events.js
destructures `sendRemoveTunnelsJobs` from `require('./tunnels')`, but
tunnels.js does not export that name, so the binding is undefined and the
dispatch call raises a TypeError instead of dispatching. -/
theorem c8_remove_dispatch_import_is_undefined :
    sendRemoveTunnelsJobsBinding = none
    ∧ sendTunnelsRemoveJobs ["tun-1"]
        = .error "TypeError: sendRemoveTunnelsJobs is not a function" := by
  exact ⟨rfl, rfl⟩

end FlexiManage
